import Mathlib

/-!
Verification of the Sonic Pi tempo-control / network-tempo-sync core
(`src/app/gui/qt/widgets/sonicpimetro.h`, `src/app/gui/qt/widgets/bpmscrubwidget.h`).

The repository ships only the two header files: the fields and their
initializers (`linkEnabled = false`, `numActiveLinks = 0`, `numTaps = 0`,
`firstTap = 0`, `lastTap = 0`) are taken from the headers, while the method
bodies (`tapTempo`, `toggleLink`, `setBPM`, the mouse event handlers, ...)
live in `.cpp` files that are not part of the sources, so their behaviour is
modelled from the specification (each such definition carries a
`Modelled from the spec:` doc comment naming the missing body).

BPM values are rationals (the spec calls them positive reals clamped to an
application-defined range `[MIN_BPM, MAX_BPM]`); timestamps are integers
(milliseconds, `qint64` in the header).  Outbound side-effects (pushes to the
network sync transport, audio-engine and display notifications) are made
explicit as lists of `SyncEvent`s returned next to the new state.
-/

/-- Modelled from the spec: the clamp to the valid BPM range
`[MIN_BPM, MAX_BPM]` used by every BPM write (`BPMScrubWidget::setBPM` body is
missing from the sources). -/
def clampBpm (lo hi x : ℚ) : ℚ := min hi (max lo x)

/-- Outbound side-effects of the tempo core, made explicit: a BPM push to the
external network sync transport, a notification of the audio engine, and a
notification of the display surface. -/
inductive SyncEvent : Type
  | pushToTransport (bpm : ℚ)
  | notifyAudioEngine (bpm : ℚ)
  | notifyDisplay (bpm : ℚ)
deriving DecidableEq, Repr

/-- Whether an event is an outbound BPM push to the sync transport. -/
def SyncEvent.isPush : SyncEvent → Bool
  | .pushToTransport _ => true
  | _ => false

/-- The tempo-sync session state: the authoritative BPM
(`BPMScrubWidget::m_bpmValue` in the header) together with the network-link
fields of `SonicPiMetro` (`linkEnabled`, `numActiveLinks`). -/
structure TempoSyncSession : Type where
  m_bpmValue : ℚ
  linkEnabled : Bool
  numActiveLinks : ℕ
deriving DecidableEq, Repr

/-- The session state right after construction: the header initializers give
`linkEnabled = false` and `numActiveLinks = 0` (sonicpimetro.h lines 53-54);
the initial BPM is a parameter. -/
def initSession (bpm : ℚ) : TempoSyncSession :=
  { m_bpmValue := bpm, linkEnabled := false, numActiveLinks := 0 }

/-- Modelled from the spec: `applyLocalBpmUpdate` (the body of
`BPMScrubWidget::setBPM` / `readAndSetBPM` is missing from the sources).
Clamps the proposed BPM to the valid range, stores it as the authoritative
BPM, notifies the audio engine, and — only if network sync is enabled —
also forwards the new BPM to the external sync transport. -/
def applyLocalBpmUpdate (lo hi : ℚ) (s : TempoSyncSession) (x : ℚ) :
    TempoSyncSession × List SyncEvent :=
  let b := clampBpm lo hi x
  ({ s with m_bpmValue := b },
   if s.linkEnabled then [.pushToTransport b, .notifyAudioEngine b]
   else [.notifyAudioEngine b])

/-- Modelled from the spec: `applyNetworkBpmUpdate` (the body of the peer
BPM callback is missing from the sources).  If network sync is disabled the
peer update is ignored; otherwise the peer BPM is clamped, stored as the
authoritative BPM, and the audio engine and display surface are notified —
the value is never re-forwarded to the transport (no echo loop). -/
def applyNetworkBpmUpdate (lo hi : ℚ) (s : TempoSyncSession) (peerBpm : ℚ) :
    TempoSyncSession × List SyncEvent :=
  if s.linkEnabled then
    let b := clampBpm lo hi peerBpm
    ({ s with m_bpmValue := b }, [.notifyAudioEngine b, .notifyDisplay b])
  else (s, [])

/-- Modelled from the spec: `setNetworkSyncEnabled` (the body of
`SonicPiMetro::toggleLink` / the `enableLink` and `disableLink` handlers is
missing from the sources).  Enabling re-publishes the current authoritative
BPM outward exactly once so that late-joining peers converge; disabling only
clears the flag. -/
def setNetworkSyncEnabled (s : TempoSyncSession) (enabled : Bool) :
    TempoSyncSession × List SyncEvent :=
  if enabled then
    ({ s with linkEnabled := true }, [.pushToTransport s.m_bpmValue])
  else ({ s with linkEnabled := false }, [])

/-- Modelled from the spec: `onActivePeerCountChanged` (the body of
`SonicPiMetro::updateActiveLinkCount` is missing from the sources): a pure
pass-through update of the displayed peer count. -/
def onActivePeerCountChanged (s : TempoSyncSession) (count : ℕ) :
    TempoSyncSession :=
  { s with numActiveLinks := count }

/-- The tap-sequence state of the tap-tempo estimator: the fields
`numTaps`, `firstTap`, `lastTap` of `SonicPiMetro` (sonicpimetro.h
lines 58-60, timestamps are `qint64` milliseconds). -/
structure TapState : Type where
  numTaps : ℕ
  firstTap : ℤ
  lastTap : ℤ
deriving DecidableEq, Repr

/-- The tap state right after construction, from the header initializers
`numTaps = 0`, `firstTap = 0`, `lastTap = 0` (sonicpimetro.h lines 58-60). -/
def initTapState : TapState := { numTaps := 0, firstTap := 0, lastTap := 0 }

/-- Modelled from the spec: `registerTap` (the body of
`SonicPiMetro::tapTempo` is missing from the sources).  If no prior tap is
recorded or the gap since the last tap exceeds the timeout, the sequence
resets to a single tap and no BPM is emitted; otherwise the tap count is
incremented, the average inter-tap interval
`(lastTapTimestamp - firstTapTimestamp) / (tapCount - 1)` is computed, and
`60000 / averageIntervalMs` clamped to the valid range is emitted. -/
def registerTap (timeout : ℤ) (lo hi : ℚ) (s : TapState) (now : ℤ) :
    TapState × Option ℚ :=
  if s.numTaps = 0 ∨ now - s.lastTap > timeout then
    ({ numTaps := 1, firstTap := now, lastTap := now }, none)
  else
    let n : ℕ := s.numTaps + 1
    let averageIntervalMs : ℚ := ((now - s.firstTap : ℤ) : ℚ) / ((n - 1 : ℕ) : ℚ)
    let bpm : ℚ := clampBpm lo hi (60000 / averageIntervalMs)
    ({ numTaps := n, firstTap := s.firstTap, lastTap := now }, some bpm)

/-- Run the tap estimator over a list of tap timestamps, collecting the
emitted BPM reading (or `none`) of each tap. -/
def tapRun (timeout : ℤ) (lo hi : ℚ) (s : TapState) :
    List ℤ → TapState × List (Option ℚ)
  | [] => (s, [])
  | t :: ts =>
    let step := registerTap timeout lo hi s t
    let rest := tapRun timeout lo hi step.1 ts
    (rest.1, step.2 :: rest.2)

/-- The drag-gesture state of the BPM scrub widget: `m_isDragging`, the
anchor positions `m_lastMouseClickGlobalPos` / `m_lastMouseClickPos`
(screen coordinates as integer pairs), and the pre-drag BPM snapshot
`m_preDragBpmValue` (bpmscrubwidget.h lines 48-51). -/
structure DragState : Type where
  m_isDragging : Bool
  m_lastMouseClickGlobalPos : ℤ × ℤ
  m_lastMouseClickPos : ℤ × ℤ
  m_preDragBpmValue : ℚ
deriving DecidableEq, Repr

/-- The idle drag state (no gesture in progress). -/
def idleDrag : DragState :=
  { m_isDragging := false, m_lastMouseClickGlobalPos := (0, 0),
    m_lastMouseClickPos := (0, 0), m_preDragBpmValue := 0 }

/-- Modelled from the spec: `beginDrag` (the body of
`BPMScrubWidget::mousePressEvent` is missing from the sources).  A second
press while a drag is already active is ignored; otherwise the current
authoritative BPM is snapshotted as `m_preDragBpmValue`, the anchor
positions are recorded, and the drag becomes active. -/
def beginDrag (s : DragState) (currentBpm : ℚ) (screenPos localPos : ℤ × ℤ) :
    DragState :=
  if s.m_isDragging then s
  else
    { m_isDragging := true, m_lastMouseClickGlobalPos := screenPos,
      m_lastMouseClickPos := localPos, m_preDragBpmValue := currentBpm }

/-- Modelled from the spec: `updateDrag` (the body of
`BPMScrubWidget::mouseMoveEvent` is missing from the sources).  A no-op when
no drag is active; otherwise computes the horizontal displacement `dx` from
the anchor screen position and proposes
`clamp(preDragBpm + dx / sensitivity, MIN_BPM, MAX_BPM)` — a linear mapping
with no acceleration curve. -/
def updateDrag (sensitivity lo hi : ℚ) (s : DragState)
    (currentScreenPos : ℤ × ℤ) : DragState × Option ℚ :=
  if s.m_isDragging then
    let dx : ℤ := currentScreenPos.1 - s.m_lastMouseClickGlobalPos.1
    (s, some (clampBpm lo hi (s.m_preDragBpmValue + (dx : ℚ) / sensitivity)))
  else (s, none)

/-- Modelled from the spec: `endDrag` (the body of
`BPMScrubWidget::mouseReleaseEvent` is missing from the sources).  Ends the
gesture: clears `m_isDragging`; the BPM already published during the drag
stays authoritative (no snap-back). -/
def endDrag (s : DragState) : DragState := { s with m_isDragging := false }

/-- One drag-move together with its publication: the BPM proposed by
`updateDrag` (if any) is pushed into the session through
`applyLocalBpmUpdate`, mirroring `mouseMoveEvent` calling `setBPM`. -/
def dragMovePublish (sensitivity lo hi : ℚ) (sess : TempoSyncSession)
    (d : DragState) (cur : ℤ × ℤ) : TempoSyncSession × DragState :=
  let u := updateDrag sensitivity lo hi d cur
  (match u.2 with
   | some b => (applyLocalBpmUpdate lo hi sess b).1
   | none => sess, u.1)

lemma clampBpm_of_le (lo hi x : ℚ) (h1 : lo ≤ x) (h2 : x ≤ hi) :
    clampBpm lo hi x = x := by
  unfold clampBpm
  rw [max_eq_right h1, min_eq_right h2]

lemma clampBpm_mono (lo hi x y : ℚ) (h : x ≤ y) :
    clampBpm lo hi x ≤ clampBpm lo hi y :=
  min_le_min le_rfl (max_le_max le_rfl h)

lemma clampBpm_le_hi (lo hi x : ℚ) : clampBpm lo hi x ≤ hi :=
  min_le_left _ _

lemma lo_le_clampBpm (lo hi x : ℚ) (h : lo ≤ hi) : lo ≤ clampBpm lo hi x :=
  le_min h (le_max_left _ _)

/-- C1: for every input `x`, `applyLocalBpmUpdate x` followed immediately by
reading the authoritative BPM returns `clamp(x, MIN_BPM, MAX_BPM)`. -/
theorem local_update_roundtrip (lo hi : ℚ) (s : TempoSyncSession) (x : ℚ) :
    (applyLocalBpmUpdate lo hi s x).1.m_bpmValue = clampBpm lo hi x := rfl

/-- C5: whenever no prior tap is recorded or the gap since the last tap
exceeds the timeout, `registerTap` resets the sequence to a single tap at
`now` and emits no BPM update. -/
theorem registerTap_reset_on_timeout (timeout : ℤ) (lo hi : ℚ) (s : TapState)
    (now : ℤ) (h : s.numTaps = 0 ∨ now - s.lastTap > timeout) :
    registerTap timeout lo hi s now =
      ({ numTaps := 1, firstTap := now, lastTap := now }, none) := by
  unfold registerTap
  rw [if_pos h]

/-- Witness for C5: a tap arriving 3000 ms after the last tap of a 5-tap
sequence (timeout 2000 ms) resets to a fresh single-tap state. -/
theorem registerTap_reset_on_timeout_witness :
    ((5 : ℕ) = 0 ∨ (3000 : ℤ) - 0 > 2000) ∧
    registerTap 2000 20 400 { numTaps := 5, firstTap := 0, lastTap := 0 } 3000 =
      ({ numTaps := 1, firstTap := 3000, lastTap := 3000 }, none) :=
  ⟨by decide,
   registerTap_reset_on_timeout 2000 20 400
     { numTaps := 5, firstTap := 0, lastTap := 0 } 3000 (by decide)⟩

/-- C6 counterexample: a second tap at the same timestamp as the first (the
reachable state (1, 0, 0) produced by a first tap at t = 0, tapped again at
t = 0) passes the reset guard, reaches the BPM branch, and there the average
inter-tap interval is 0 — so `60000 / averageIntervalMs` divides by zero (in
the rational model it yields 0, clamped to MIN_BPM = 20), refuting the
claim's conjunct that that division is never by zero. -/
theorem tap_bpm_divisor_zero_counterexample :
    (¬((TapState.mk 1 0 0).numTaps = 0 ∨
        (0 : ℤ) - (TapState.mk 1 0 0).lastTap > 2000)) ∧
    (registerTap 2000 20 400 (TapState.mk 1 0 0) 0).1 = TapState.mk 2 0 0 ∧
    ((0 - (TapState.mk 1 0 0).firstTap : ℤ) : ℚ) /
      ((((TapState.mk 1 0 0).numTaps + 1) - 1 : ℕ) : ℚ) = 0 ∧
    (tapRun 2000 20 400 initTapState [0, 0]).2 = [none, some 20] := by
  refine ⟨by decide, ?_, by norm_num, ?_⟩
  · norm_num [registerTap]
  · norm_num [tapRun, registerTap, initTapState, clampBpm]

/-- C6 (amended): whenever `registerTap` takes the BPM-computation branch
(the reset guard fails), it emits a reading and the divisor `tapCount - 1`
of the average-interval computation is positive (nonzero as a rational), so
that division is never by zero; the further division
`60000 / averageIntervalMs` has a nonzero divisor whenever the new tap's
timestamp strictly exceeds `firstTapTimestamp` (it is zero when all taps of
the sequence share one timestamp, see the counterexample). -/
theorem tap_bpm_branch_divisor_pos (timeout : ℤ) (lo hi : ℚ) (s : TapState)
    (now : ℤ) (h : ¬(s.numTaps = 0 ∨ now - s.lastTap > timeout)) :
    ((registerTap timeout lo hi s now).2.isSome = true) ∧
    0 < (registerTap timeout lo hi s now).1.numTaps - 1 ∧
    (((registerTap timeout lo hi s now).1.numTaps - 1 : ℕ) : ℚ) ≠ 0 ∧
    (s.firstTap < now →
      ((now - s.firstTap : ℤ) : ℚ) / (((s.numTaps + 1) - 1 : ℕ) : ℚ) ≠ 0) := by
  have hn : s.numTaps ≠ 0 := fun h0 => h (Or.inl h0)
  unfold registerTap
  rw [if_neg h]
  refine ⟨rfl, ?_, ?_, ?_⟩
  · simpa using Nat.pos_of_ne_zero hn
  · simpa using hn
  · intro hlt
    apply div_ne_zero
    · exact Int.cast_ne_zero.mpr (by omega)
    · simpa using hn

/-- Witness for C6 (amended): the second tap of a sequence (500 ms after the
first, timeout 2000 ms) reaches the BPM branch with a positive tap-count
divisor and a nonzero average interval. -/
theorem tap_bpm_branch_divisor_pos_witness :
    (¬((2 : ℕ) = 0 ∨ (500 : ℤ) - 0 > 2000)) ∧
    ((TapState.mk 2 0 0).firstTap < (500 : ℤ)) ∧
    ((registerTap 2000 20 400 (TapState.mk 2 0 0) 500).2.isSome = true) ∧
    0 < (registerTap 2000 20 400 (TapState.mk 2 0 0) 500).1.numTaps - 1 ∧
    (((registerTap 2000 20 400 (TapState.mk 2 0 0)
        500).1.numTaps - 1 : ℕ) : ℚ) ≠ 0 ∧
    ((500 - (TapState.mk 2 0 0).firstTap : ℤ) : ℚ) /
      ((((TapState.mk 2 0 0).numTaps + 1) - 1 : ℕ) : ℚ) ≠ 0 := by
  have T := tap_bpm_branch_divisor_pos 2000 20 400 (TapState.mk 2 0 0) 500
    (by decide)
  exact ⟨by decide, by decide, T.1, T.2.1, T.2.2.1, T.2.2.2 (by decide)⟩

/-- C7: while network sync is disabled, `applyNetworkBpmUpdate` leaves the
authoritative BPM (indeed the whole session state) unchanged and performs no
side-effect: the peer update is ignored, not an error. -/
theorem network_update_ignored_when_disabled (lo hi : ℚ)
    (s : TempoSyncSession) (peerBpm : ℚ) (h : s.linkEnabled = false) :
    (applyNetworkBpmUpdate lo hi s peerBpm).1.m_bpmValue = s.m_bpmValue ∧
    applyNetworkBpmUpdate lo hi s peerBpm = (s, []) := by
  unfold applyNetworkBpmUpdate
  rw [if_neg (by simp [h])]
  exact ⟨rfl, rfl⟩

/-- Witness for C7: a freshly constructed session (sync disabled) ignores a
peer update proposing BPM 999. -/
theorem network_update_ignored_when_disabled_witness :
    ((initSession 120).linkEnabled = false) ∧
    (applyNetworkBpmUpdate 20 400 (initSession 120) 999).1.m_bpmValue =
      (initSession 120).m_bpmValue ∧
    applyNetworkBpmUpdate 20 400 (initSession 120) 999 =
      (initSession 120, []) :=
  ⟨rfl, network_update_ignored_when_disabled 20 400 (initSession 120) 999 rfl⟩

/-- C8: enabling network sync re-publishes the current authoritative BPM to
the transport exactly once per enable call, while `applyNetworkBpmUpdate`
never forwards the received BPM back to the transport (no echo loop). -/
theorem enable_republishes_once_no_echo (lo hi : ℚ) (s : TempoSyncSession)
    (peerBpm : ℚ) :
    (setNetworkSyncEnabled s true).2 =
      [SyncEvent.pushToTransport s.m_bpmValue] ∧
    ((setNetworkSyncEnabled s true).2.countP SyncEvent.isPush = 1) ∧
    ((applyNetworkBpmUpdate lo hi s peerBpm).2.countP SyncEvent.isPush = 0) := by
  refine ⟨rfl, rfl, ?_⟩
  cases h : s.linkEnabled <;>
    simp [applyNetworkBpmUpdate, h, List.countP, List.countP.go, SyncEvent.isPush]

/-- C9: `endDrag` twice has no effect beyond the first call; `updateDrag`
before any `beginDrag` is a no-op; a second `beginDrag` while a drag is
already active is ignored. -/
theorem drag_guards_idempotent (sensitivity lo hi bpm : ℚ) (s t : DragState)
    (sp lp cur : ℤ × ℤ) (hs : s.m_isDragging = false)
    (ht : t.m_isDragging = true) :
    updateDrag sensitivity lo hi s cur = (s, none) ∧
    beginDrag t bpm sp lp = t ∧
    endDrag (endDrag s) = endDrag s ∧
    endDrag (endDrag t) = endDrag t := by
  refine ⟨?_, ?_, rfl, rfl⟩
  · unfold updateDrag
    rw [if_neg (by simp [hs])]
  · unfold beginDrag
    rw [if_pos (by simp [ht])]

/-- Witness for C9: the guards evaluated at the idle state and at a concrete
active drag state. -/
theorem drag_guards_idempotent_witness :
    (idleDrag.m_isDragging = false) ∧
    ((⟨true, (100, 0), (10, 10), 120⟩ : DragState).m_isDragging = true) ∧
    (updateDrag 2 20 400 idleDrag (140, 0) = (idleDrag, none) ∧
     beginDrag (⟨true, (100, 0), (10, 10), 120⟩ : DragState) 90 (5, 5) (1, 1) =
       (⟨true, (100, 0), (10, 10), 120⟩ : DragState) ∧
     endDrag (endDrag idleDrag) = endDrag idleDrag ∧
     endDrag (endDrag (⟨true, (100, 0), (10, 10), 120⟩ : DragState)) =
       endDrag (⟨true, (100, 0), (10, 10), 120⟩ : DragState)) :=
  ⟨rfl, rfl,
   drag_guards_idempotent 2 20 400 90 idleDrag
     (⟨true, (100, 0), (10, 10), 120⟩ : DragState) (5, 5) (1, 1) (140, 0)
     rfl rfl⟩

/-- C10: immediately after construction network sync is disabled, the active
peer count is 0, the tap state is empty, the very first tap emits no BPM
reading, and no network update can change the BPM before sync is enabled. -/
theorem construction_defaults (timeout : ℤ) (lo hi bpm peerBpm : ℚ)
    (now : ℤ) :
    (initSession bpm).linkEnabled = false ∧
    (initSession bpm).numActiveLinks = 0 ∧
    initTapState.numTaps = 0 ∧
    initTapState.firstTap = 0 ∧
    initTapState.lastTap = 0 ∧
    (registerTap timeout lo hi initTapState now).2 = none ∧
    applyNetworkBpmUpdate lo hi (initSession bpm) peerBpm =
      (initSession bpm, []) := by
  refine ⟨rfl, rfl, rfl, rfl, rfl, ?_, ?_⟩
  · unfold registerTap
    rw [if_pos (show initTapState.numTaps = 0 ∨
        now - initTapState.lastTap > timeout from Or.inl rfl)]
  · unfold applyNetworkBpmUpdate
    rw [if_neg (by simp [initSession])]

lemma registerTap_reset_eq (timeout : ℤ) (lo hi : ℚ) (s : TapState) (now : ℤ)
    (h : s.numTaps = 0 ∨ now - s.lastTap > timeout) :
    registerTap timeout lo hi s now = (TapState.mk 1 now now, none) := by
  unfold registerTap
  rw [if_pos h]

lemma registerTap_uniform_step (lo hi : ℚ) (h1 : lo ≤ 120) (h2 : 120 ≤ hi)
    (k : ℕ) :
    registerTap 2000 lo hi (TapState.mk (k + 1) 0 (500 * (k : ℤ)))
        (500 * ((k : ℤ) + 1)) =
      (TapState.mk (k + 2) 0 (500 * ((k : ℤ) + 1)), some 120) := by
  have hguard : ¬((TapState.mk (k + 1) 0 (500 * (k : ℤ))).numTaps = 0 ∨
      500 * ((k : ℤ) + 1) - (TapState.mk (k + 1) 0 (500 * (k : ℤ))).lastTap >
        2000) := by
    push_neg
    refine ⟨by simp, ?_⟩
    show 500 * ((k : ℤ) + 1) - 500 * (k : ℤ) ≤ 2000
    ring_nf
    omega
  simp only [registerTap]
  rw [if_neg hguard]
  have hk : ((k : ℚ) + 1) ≠ 0 := by positivity
  have key : (60000 : ℚ) /
      (((500 * ((k : ℤ) + 1) - 0 : ℤ) : ℚ) / ((k + 1 + 1 - 1 : ℕ) : ℚ)) =
        120 := by
    have e1 : ((500 * ((k : ℤ) + 1) - 0 : ℤ) : ℚ) = 500 * ((k : ℚ) + 1) := by
      push_cast; ring
    have e2 : ((k + 1 + 1 - 1 : ℕ) : ℚ) = (k : ℚ) + 1 := by
      push_cast; ring
    rw [e1, e2, mul_div_assoc, div_self hk, mul_one]
    norm_num
  simp only [Prod.mk.injEq, TapState.mk.injEq, Option.some.injEq]
  refine ⟨trivial, ?_⟩
  rw [key]
  exact clampBpm_of_le lo hi 120 h1 h2

lemma tapRun_uniform_aux (lo hi : ℚ) (h1 : lo ≤ 120) (h2 : 120 ≤ hi)
    (n : ℕ) :
    ∀ (k : ℕ),
      (tapRun 2000 lo hi (TapState.mk (k + 1) 0 (500 * (k : ℤ)))
          ((List.range n).map (fun i : ℕ => 500 * ((k : ℤ) + 1 + (i : ℤ))))).2 =
        List.replicate n (some 120) := by
  induction n with
  | zero => intro k; rfl
  | succ n ih =>
    intro k
    rw [List.range_succ_eq_map, List.map_cons, List.map_map]
    simp only [Nat.cast_zero, add_zero, tapRun]
    rw [registerTap_uniform_step lo hi h1 h2 k]
    have hfun : ((fun i : ℕ => 500 * ((k : ℤ) + 1 + (i : ℤ))) ∘ Nat.succ) =
        (fun i : ℕ => 500 * (((k + 1 : ℕ) : ℤ) + 1 + (i : ℤ))) := by
      funext i
      simp only [Function.comp]
      push_cast
      ring
    have hst : (500 : ℤ) * ((k : ℤ) + 1) = 500 * ((k + 1 : ℕ) : ℤ) := by
      push_cast
      ring
    rw [hfun, hst, List.replicate_succ]
    exact congrArg (List.cons (some 120)) (ih (k + 1))

/-- C2: from the empty tap state, the first registered tap emits no BPM
reading, and for taps at exactly 500 ms intervals (timeout 2000 ms) every
tap from the second onward emits BPM 120: `n + 1` uniform taps yield the
readings `none` followed by `n` times `some 120`. -/
theorem tap_uniform_emits_120 (lo hi : ℚ) (h1 : lo ≤ 120) (h2 : 120 ≤ hi)
    (n : ℕ) :
    (∀ (timeout t : ℤ), (registerTap timeout lo hi initTapState t).2 = none) ∧
    (tapRun 2000 lo hi initTapState
        ((List.range (n + 1)).map (fun i : ℕ => 500 * (i : ℤ)))).2 =
      none :: List.replicate n (some 120) := by
  constructor
  · intro timeout t
    rw [registerTap_reset_eq timeout lo hi initTapState t (Or.inl rfl)]
  · rw [List.range_succ_eq_map, List.map_cons, List.map_map]
    simp only [Nat.cast_zero, mul_zero, tapRun]
    rw [registerTap_reset_eq 2000 lo hi initTapState 0 (Or.inl rfl)]
    have hfun : ((fun i : ℕ => 500 * (i : ℤ)) ∘ Nat.succ) =
        (fun i : ℕ => 500 * (((0 : ℕ) : ℤ) + 1 + (i : ℤ))) := by
      funext i
      simp only [Function.comp]
      push_cast
      ring
    rw [hfun]
    have h0 : (TapState.mk 1 0 0) =
        TapState.mk ((0 : ℕ) + 1) 0 (500 * ((0 : ℕ) : ℤ)) := by
      simp
    rw [h0]
    exact congrArg (List.cons none) (tapRun_uniform_aux lo hi h1 h2 n 0)

/-- Witness for C2: taps at t = 0, 500, 1000, 1500 ms with a 2000 ms timeout
and valid range [20, 400] yield the readings (none, 120, 120, 120). -/
theorem tap_uniform_emits_120_witness :
    (20 : ℚ) ≤ 120 ∧ (120 : ℚ) ≤ 400 ∧
    (tapRun 2000 20 400 initTapState [0, 500, 1000, 1500]).2 =
      [none, some 120, some 120, some 120] := by
  refine ⟨by norm_num, by norm_num, ?_⟩
  have h := (tap_uniform_emits_120 20 400 (by norm_num) (by norm_num) 3).2
  have hl : ((List.range (3 + 1)).map (fun i : ℕ => 500 * (i : ℤ))) =
      [0, 500, 1000, 1500] := by decide
  rw [hl] at h
  simpa [List.replicate] using h

/-- C3: during an active drag `updateDrag` proposes
`clamp(preDragBpm + dx / sensitivity)` (linear, no acceleration); and in the
end-to-end scenario — press at screen x = 100 with current BPM 120,
sensitivity 2 px per BPM unit, move to x = 140, publish, release — the
authoritative BPM reads 140 and the drag is over. -/
theorem drag_linear_formula_scenario (sensitivity lo hi : ℚ)
    (sess : TempoSyncSession) (y₁ y₂ : ℤ) (lp : ℤ × ℤ)
    (hlo : lo ≤ 140) (hhi : 140 ≤ hi) :
    (∀ (s : DragState) (cur : ℤ × ℤ), s.m_isDragging = true →
      (updateDrag sensitivity lo hi s cur).2 =
        some (clampBpm lo hi (s.m_preDragBpmValue +
          ((cur.1 - s.m_lastMouseClickGlobalPos.1 : ℤ) : ℚ) / sensitivity))) ∧
    (updateDrag 2 lo hi (beginDrag idleDrag 120 (100, y₁) lp) (140, y₂)).2 =
      some 140 ∧
    (dragMovePublish 2 lo hi sess (beginDrag idleDrag 120 (100, y₁) lp)
        (140, y₂)).1.m_bpmValue = 140 ∧
    (endDrag (dragMovePublish 2 lo hi sess
        (beginDrag idleDrag 120 (100, y₁) lp) (140, y₂)).2).m_isDragging =
      false := by
  have hb : beginDrag idleDrag 120 (100, y₁) lp =
      DragState.mk true (100, y₁) lp 120 := rfl
  have hu : (updateDrag 2 lo hi (DragState.mk true (100, y₁) lp 120)
      (140, y₂)).2 = some 140 := by
    unfold updateDrag
    rw [if_pos rfl]
    have harg : (120 : ℚ) + ((140 - 100 : ℤ) : ℚ) / 2 = 140 := by norm_num
    show some (clampBpm lo hi ((120 : ℚ) + ((140 - 100 : ℤ) : ℚ) / 2)) =
      some 140
    rw [harg, clampBpm_of_le lo hi 140 hlo hhi]
  refine ⟨?_, ?_, ?_, rfl⟩
  · intro s cur hd
    unfold updateDrag
    rw [if_pos hd]
  · rw [hb]
    exact hu
  · rw [hb]
    simp only [dragMovePublish]
    rw [hu]
    show (applyLocalBpmUpdate lo hi sess 140).1.m_bpmValue = 140
    show clampBpm lo hi 140 = 140
    exact clampBpm_of_le lo hi 140 hlo hhi

/-- Witness for C3: the drag scenario evaluated with valid range [20, 400]
and a fresh session at BPM 120. -/
theorem drag_linear_formula_scenario_witness :
    (20 : ℚ) ≤ 140 ∧ (140 : ℚ) ≤ 400 ∧
    ((∀ (s : DragState) (cur : ℤ × ℤ), s.m_isDragging = true →
      (updateDrag 2 20 400 s cur).2 =
        some (clampBpm 20 400 (s.m_preDragBpmValue +
          ((cur.1 - s.m_lastMouseClickGlobalPos.1 : ℤ) : ℚ) / 2))) ∧
    (updateDrag 2 20 400 (beginDrag idleDrag 120 (100, 0) (0, 0)) (140, 0)).2 =
      some 140 ∧
    (dragMovePublish 2 20 400 (initSession 120)
        (beginDrag idleDrag 120 (100, 0) (0, 0)) (140, 0)).1.m_bpmValue = 140 ∧
    (endDrag (dragMovePublish 2 20 400 (initSession 120)
        (beginDrag idleDrag 120 (100, 0) (0, 0)) (140, 0)).2).m_isDragging =
      false) :=
  ⟨by norm_num, by norm_num,
   drag_linear_formula_scenario 2 20 400 (initSession 120) 0 0 (0, 0)
     (by norm_num) (by norm_num)⟩

/-- C4: for a fixed drag state (fixed `preDragBpm` and anchor), the BPM
published by `updateDrag` is monotonically non-decreasing in the horizontal
screen position (hence in the displacement `dx`), and always lies within
`[MIN_BPM, MAX_BPM]`. -/
theorem drag_monotone_in_bounds (sensitivity lo hi : ℚ) (s : DragState)
    (cur1 cur2 : ℤ × ℤ) (b1 b2 : ℚ) (hsens : 0 < sensitivity)
    (hlohi : lo ≤ hi) (hx : cur1.1 ≤ cur2.1)
    (hb1 : (updateDrag sensitivity lo hi s cur1).2 = some b1)
    (hb2 : (updateDrag sensitivity lo hi s cur2).2 = some b2) :
    b1 ≤ b2 ∧ lo ≤ b1 ∧ b1 ≤ hi := by
  cases hd : s.m_isDragging with
  | false =>
    rw [show updateDrag sensitivity lo hi s cur1 = (s, none) from by
      unfold updateDrag; rw [if_neg (by simp [hd])]] at hb1
    exact Option.noConfusion hb1
  | true =>
    unfold updateDrag at hb1 hb2
    rw [if_pos hd] at hb1 hb2
    rw [Option.some_inj] at hb1 hb2
    subst hb1
    subst hb2
    refine ⟨?_, lo_le_clampBpm _ _ _ hlohi, clampBpm_le_hi _ _ _⟩
    apply clampBpm_mono
    have hdx : ((cur1.1 - s.m_lastMouseClickGlobalPos.1 : ℤ) : ℚ) ≤
        ((cur2.1 - s.m_lastMouseClickGlobalPos.1 : ℤ) : ℚ) := by
      exact_mod_cast sub_le_sub_right hx _
    exact add_le_add_left ((div_le_div_iff_of_pos_right hsens).mpr hdx) _

/-- Witness for C4: with sensitivity 2 and range [20, 400], moving from
x = 110 to x = 140 on a drag anchored at x = 100 with pre-drag BPM 120
yields 125 ≤ 140, both inside the range. -/
theorem drag_monotone_in_bounds_witness :
    (0 : ℚ) < 2 ∧ (20 : ℚ) ≤ 400 ∧
    (((110 : ℤ), (0 : ℤ)).1 ≤ ((140 : ℤ), (0 : ℤ)).1) ∧
    (updateDrag 2 20 400 (DragState.mk true (100, 0) (0, 0) 120)
      ((110 : ℤ), (0 : ℤ))).2 = some 125 ∧
    (updateDrag 2 20 400 (DragState.mk true (100, 0) (0, 0) 120)
      ((140 : ℤ), (0 : ℤ))).2 = some 140 ∧
    ((125 : ℚ) ≤ 140 ∧ (20 : ℚ) ≤ 125 ∧ (125 : ℚ) ≤ 400) := by
  have hb1 : (updateDrag 2 20 400 (DragState.mk true (100, 0) (0, 0) 120)
      ((110 : ℤ), (0 : ℤ))).2 = some 125 := by
    norm_num [updateDrag, clampBpm]
  have hb2 : (updateDrag 2 20 400 (DragState.mk true (100, 0) (0, 0) 120)
      ((140 : ℤ), (0 : ℤ))).2 = some 140 := by
    norm_num [updateDrag, clampBpm]
  exact ⟨by norm_num, by norm_num, by decide, hb1, hb2,
    drag_monotone_in_bounds 2 20 400 (DragState.mk true (100, 0) (0, 0) 120)
      ((110 : ℤ), (0 : ℤ)) ((140 : ℤ), (0 : ℤ)) 125 140 (by norm_num)
      (by norm_num) (by decide) hb1 hb2⟩
